import Mathlib

/-!
Verification of the schema-translation core of `sqlite_fdw` (`src/funcs.c`).

The embedding models the pure computational core of the file:
the affinity classifier `get_affinity__`, the type translator
`translate_sqliteType__`, the scope filter `is_sqliteTableRequired`, the
per-column clause builder `add_columnDefinition__` and the per-table
statement synthesizer `get_foreignTableCreationSql`.

External collaborators are modelled as parameters: the PostgreSQL
`quote_identifier` routine is an arbitrary function `String → String`,
the sqlite metadata cursor (`PRAGMA table_info`) is a list of column
rows, and `ereport(ERROR, ...)` becomes `Except.error` carrying the
formatted message.  C string helpers (`asc_tolower`, `strstr`,
`strncmp(_, _, 4)`, `strcmp`) are modelled on the character lists
underlying Lean strings so that everything evaluates by kernel
reduction.
-/

/-- ASCII lower-casing of one character, as PostgreSQL `asc_tolower`
does byte-wise. -/
def asc_toLowerChar (c : Char) : Char :=
  if 'A' ≤ c ∧ c ≤ 'Z' then Char.ofNat (c.toNat + 32) else c

/-- Model of PostgreSQL `asc_tolower` applied to a NUL-terminated string:
lower-case every ASCII letter. -/
def asc_tolower (s : String) : String :=
  String.mk (s.data.map asc_toLowerChar)

/-- `strstrB hay needle` decides whether `needle` occurs contiguously in
`hay` (model of C `strstr _ _ ≠ NULL`). -/
def strstrB : List Char → List Char → Bool
  | [], needle => needle.isEmpty
  | c :: t, needle => List.isPrefixOf needle (c :: t) || strstrB t needle

/-- String-level wrapper for `strstrB`: C `strstr hay needle != NULL`. -/
def strstr (hay needle : String) : Bool :=
  strstrB hay.data needle.data

/-- Model of C `strncmp needle-length` prefix test: `strncmp(hay, needle, 4) == 0`
for the four-character `needle` is exactly "needle is a prefix of hay". -/
def strPrefixOf (needle hay : String) : Bool :=
  List.isPrefixOf needle.data hay.data

/-- `get_affinity__` from `src/funcs.c` lines 100-120: first-match
substring cascade deriving the sqlite column affinity, defaulting to
`"Numeric"`. -/
def get_affinity__ (type : String) : String :=
  if strstr type "int" then "Integer"
  else if strstr type "char" || strstr type "clob" || strstr type "text" then "Text"
  else if strstr type "blob" then "Blob"
  else if strstr type "real" || strstr type "floa" || strstr type "doub" then "Real"
  else "Numeric"

/-- `translate_sqliteType__` from `src/funcs.c` lines 63-92.  The input is
lower-cased, its affinity computed, and the affinity mapped to a target
type.  The Numeric branch reproduces the C condition verbatim:
`strcmp(type, "timestamp") == 0 || strcmp(type, "date")`, whose second
disjunct is truthy exactly when `type ≠ "date"`, and the `return type`
returns the lower-cased declaration itself.  `ereport(ERROR, ...)` is
modelled as `Except.error` with the formatted message. -/
def translate_sqliteType__ (type0 : String) : Except String String :=
  let type := asc_tolower type0
  let affinity := get_affinity__ type
  if affinity = "Text" then Except.ok "text"
  else if affinity = "Integer" then Except.ok "bigint"
  else if affinity = "Real" then Except.ok "double precision"
  else if affinity = "Blob" then Except.ok "bytea"
  else if type = "timestamp" ∨ ¬ (type = "date") then Except.ok type
  else if strPrefixOf "bool" type then Except.ok "boolean"
  else Except.error ("Could not handle type " ++ type ++ " from a sqlite db")

/-- The three values of `ImportForeignSchemaType` used by
`is_sqliteTableRequired` (`FDW_IMPORT_SCHEMA_ALL` is the `default` arm). -/
inductive ImportSchemaType
  | FDW_IMPORT_SCHEMA_ALL
  | FDW_IMPORT_SCHEMA_LIMIT_TO
  | FDW_IMPORT_SCHEMA_EXCEPT
deriving DecidableEq

/-- The fields of PostgreSQL `ImportForeignSchemaStmt` read by
`src/funcs.c`: the list type, the `relname`s of `table_list`, the target
`local_schema` and the `server_name`. -/
structure ImportForeignSchemaStmt where
  list_type : ImportSchemaType
  table_list : List String
  local_schema : String
  server_name : String
deriving DecidableEq

/-- `is_sqliteTableRequired` from `src/funcs.c` lines 160-188.  The
`LIMIT_TO` loop returns true on the first name match, else false; the
`EXCEPT` loop returns false on a match and otherwise falls through into
`default: return true`. -/
def is_sqliteTableRequired (stmt : ImportForeignSchemaStmt)
    (tablename : String) : Bool :=
  match stmt.list_type with
  | ImportSchemaType.FDW_IMPORT_SCHEMA_LIMIT_TO =>
      stmt.table_list.any (fun relname => tablename == relname)
  | ImportSchemaType.FDW_IMPORT_SCHEMA_EXCEPT =>
      !(stmt.table_list.any (fun relname => tablename == relname))
  | ImportSchemaType.FDW_IMPORT_SCHEMA_ALL => true

/-- The two import options read by `add_columnDefinition__`. -/
structure SqliteTableImportOptions where
  import_notnull : Bool
  import_default : Bool
deriving DecidableEq

/-- One row of the `PRAGMA table_info` cursor as read by
`add_columnDefinition__`: column 1 is the name, column 2 the declared
type (possibly SQL NULL), column 3 the not-null flag as an integer,
column 4 the default value text (possibly SQL NULL). -/
structure ColumnRow where
  name : String
  declType : Option String
  notnull : Int
  dflt_value : Option String
deriving DecidableEq

/-- The typename resolution at `src/funcs.c` lines 296-298: a SQL NULL
declared type is replaced by the literal `"blob"`. -/
def typenameOfRow (columns : ColumnRow) : String :=
  match columns.declType with
  | none => "blob"
  | some t => t

/-- `add_columnDefinition__` from `src/funcs.c` lines 289-319, appending
one column clause to the accumulated statement text `cftsql`.  The
caller-owned `quote_identifier` is a parameter.  An `ereport` raised by
`translate_sqliteType__` aborts the whole computation
(`Except.error`). -/
def add_columnDefinition__ (quote_identifier : String → String)
    (cftsql : String) (counter : Nat)
    (importOpts : SqliteTableImportOptions) (columns : ColumnRow) :
    Except String String :=
  let colname := columns.name
  let typename := typenameOfRow columns
  let s1 := if counter > 0 then cftsql ++ "," else cftsql
  let s2 := s1 ++ "\n"
  let s3 := s2 ++ (quote_identifier colname ++ " ")
  match translate_sqliteType__ typename with
  | Except.error e => Except.error e
  | Except.ok ttype =>
      let s4 := s3 ++ (ttype ++ " ")
      let s5 := if importOpts.import_notnull = true then
                  (if columns.notnull = 1 then s4 ++ " NOT NULL " else s4)
                else s4
      let s6 := if importOpts.import_default = true then
                  (match columns.dflt_value with
                   | some d => s5 ++ (" DEFAULT " ++ d ++ " ")
                   | none => s5)
                else s5
      Except.ok s6

/-- The `while (sqlite3_step(columns) == SQLITE_ROW)` loop of
`get_foreignTableCreationSql` (`src/funcs.c` lines 217-219): fold
`add_columnDefinition__` over the cursor rows with the running counter,
propagating a raised error. -/
def addColumns (quote_identifier : String → String) (cftsql : String)
    (counter : Nat) (importOpts : SqliteTableImportOptions) :
    List ColumnRow → Except String String
  | [] => Except.ok cftsql
  | c :: cs =>
      match add_columnDefinition__ quote_identifier cftsql counter importOpts c with
      | Except.error e => Except.error e
      | Except.ok s =>
          addColumns quote_identifier s (counter + 1) importOpts cs

/-- `get_foreignTableCreationSql` from `src/funcs.c` lines 191-242.  The
metadata cursor is modelled as the list `db` of column rows.  Returns
`Except.ok none` when the scope filter rejects the table (the C
`return NULL`), `Except.error` when a column fails to classify (the C
`PG_RE_THROW` after freeing the partial buffer), and otherwise the full
statement text.  Note the header format string embeds
`stmt->local_schema` itself while the table name goes through
`quote_identifier`. -/
def get_foreignTableCreationSql (quote_identifier : String → String)
    (stmt : ImportForeignSchemaStmt) (db : List ColumnRow)
    (tablename : String)
    (importOptions : SqliteTableImportOptions) :
    Except String (Option String) :=
  if !(is_sqliteTableRequired stmt tablename) then Except.ok none
  else
    let header := "CREATE FOREIGN TABLE " ++ stmt.local_schema ++ "."
      ++ quote_identifier tablename ++ " ("
    match addColumns quote_identifier header 0 importOptions db with
    | Except.error e => Except.error e
    | Except.ok body =>
        Except.ok (some (body ++ ("\n) SERVER " ++ quote_identifier stmt.server_name
          ++ "\nOPTIONS (table \x27" ++ quote_identifier tablename ++ "\x27)")))

example : translate_sqliteType__ "INTEGER" = Except.ok "bigint" := rfl
example : translate_sqliteType__ "Varchar(20)" = Except.ok "text" := rfl
example : translate_sqliteType__ "BLOB" = Except.ok "bytea" := rfl
example : translate_sqliteType__ "double precision" = Except.ok "double precision" := rfl
example : translate_sqliteType__ "timestamp" = Except.ok "timestamp" := rfl
example : translate_sqliteType__ "date" =
    Except.error "Could not handle type date from a sqlite db" := rfl
example : translate_sqliteType__ "numeric" = Except.ok "numeric" := rfl
example : translate_sqliteType__ "bool" = Except.ok "bool" := rfl

/-- Modelled from the spec (sections 4.3 and 6), as amended by the
counterexample below: one column clause rendered standalone, with the
column name passed through the caller-supplied quoting function. -/
def columnClauseAmended (quote_identifier : String → String)
    (opts : SqliteTableImportOptions) (c : ColumnRow) : Except String String :=
  match translate_sqliteType__ (typenameOfRow c) with
  | Except.error e => Except.error e
  | Except.ok t =>
      Except.ok ("\n" ++ (quote_identifier c.name ++ " ") ++ (t ++ " ")
        ++ (if opts.import_notnull = true ∧ c.notnull = 1
            then " NOT NULL " else "")
        ++ (if opts.import_default = true ∧ ¬ (c.dflt_value = none)
            then " DEFAULT " ++ c.dflt_value.getD "" ++ " " else ""))

/-- Modelled from the spec: render every column clause independently, in
cursor order, propagating a classification failure. -/
def renderClauses (quote_identifier : String → String)
    (opts : SqliteTableImportOptions) : List ColumnRow → Except String (List String)
  | [] => Except.ok []
  | c :: cs =>
      match columnClauseAmended quote_identifier opts c,
            renderClauses quote_identifier opts cs with
      | Except.error e, _ => Except.error e
      | Except.ok _, Except.error e => Except.error e
      | Except.ok cl, Except.ok cls => Except.ok (cl :: cls)

/-- Comma-join of rendered clauses starting at a given counter: a clause
gets a leading comma iff it is not the first of the table. -/
def joinClausesFrom : Nat → List String → String
  | _, [] => ""
  | counter, cl :: cls =>
      (if counter > 0 then "," else "") ++ cl ++ joinClausesFrom (counter + 1) cls

/-- Modelled from the spec (section 4.3 shape and section 6 quoting), as
amended: the synthesized statement passes the table name, the server
name and every column name through the caller-supplied
`quote_identifier`, while the schema name is embedded verbatim. -/
def renderTableSqlAmended (quote_identifier : String → String)
    (stmt : ImportForeignSchemaStmt) (db : List ColumnRow)
    (tablename : String) (opts : SqliteTableImportOptions) :
    Except String (Option String) :=
  if !(is_sqliteTableRequired stmt tablename) then Except.ok none
  else
    match renderClauses quote_identifier opts db with
    | Except.error e => Except.error e
    | Except.ok cls =>
        Except.ok (some ("CREATE FOREIGN TABLE " ++ stmt.local_schema ++ "."
          ++ quote_identifier tablename ++ " (" ++ joinClausesFrom 0 cls
          ++ "\n) SERVER " ++ quote_identifier stmt.server_name
          ++ "\nOPTIONS (table \x27" ++ quote_identifier tablename ++ "\x27)"))

/-- Claim C1.  The claim says a Numeric-affinity declaration equal to
"timestamp" yields TargetType "timestamp" and one equal to "date" yields
TargetType "date".  The first half holds, but the code raises its
unsupported-type error on "date": the condition at `src/funcs.c` line 82
reads `strcmp(type, "date")` without `== 0`, contradicting the file's
own header comment ("if the column type is explicity timestamp, date or
boolean then again we are good").  This theorem evaluates the code at
both inputs. -/
theorem translate_timestamp_ok_but_date_raises :
    translate_sqliteType__ "timestamp" = Except.ok "timestamp" ∧
    translate_sqliteType__ "date" =
      Except.error "Could not handle type date from a sqlite db" :=
  ⟨rfl, rfl⟩

/-- Claim C2.  The claim says every Numeric-affinity declaration that is
not "timestamp", not "date" and does not begin with "bool" fails with
the unsupported-type error and never yields a guessed type.  The input
"numeric" satisfies all those side conditions, yet the code returns the
guessed type "numeric" (because `strcmp(type, "date")` at line 82 is
truthy for it), contradicting the header comment's "Otherwise we
croak". -/
theorem translate_unmatched_numeric_returns_guess :
    get_affinity__ (asc_tolower "numeric") = "Numeric" ∧
    ¬ (asc_tolower "numeric" = "timestamp") ∧
    ¬ (asc_tolower "numeric" = "date") ∧
    strPrefixOf "bool" (asc_tolower "numeric") = false ∧
    translate_sqliteType__ "numeric" = Except.ok "numeric" :=
  ⟨rfl, by decide, by decide, rfl, rfl⟩

/-- Claim C3.  The claim says Numeric-affinity declarations beginning
with "bool" classify to "boolean" and that "boo" falls through (to the
error).  In the code the `strncmp(type, "bool", 4)` branch at line 85 is
unreachable: it is only tested when `type = "date"`.  So "bool" yields
"bool" and "booly" yields "booly" (not "boolean"), "boolean" yields
"boolean" only because the declaration string is returned verbatim, and
"boo" yields "boo" instead of falling through to the error. -/
theorem translate_bool_prefix_rule_dead :
    translate_sqliteType__ "bool" = Except.ok "bool" ∧
    translate_sqliteType__ "booly" = Except.ok "booly" ∧
    translate_sqliteType__ "boolean" = Except.ok "boolean" ∧
    translate_sqliteType__ "boo" = Except.ok "boo" :=
  ⟨rfl, rfl, rfl, rfl⟩

/-- Claim C4.  Every declaration string whose lower-cased form contains
the substring "int" classifies to "bigint": the `strstr(type, "int")`
test is the first rule of `get_affinity__`, so Integer affinity wins
over any later rule ("char"/"clob"/"text", "blob", "real"/"floa"/"doub")
that might also match, and Integer affinity maps to "bigint". -/
theorem translate_int_substring_bigint (s : String)
    (h : strstr (asc_tolower s) "int" = true) :
    translate_sqliteType__ s = Except.ok "bigint" := by
  have haff : get_affinity__ (asc_tolower s) = "Integer" := by
    simp [get_affinity__, h]
  simp only [translate_sqliteType__]
  rw [haff]
  rw [if_neg (by decide), if_pos rfl]

/-- Witness for C4 at the declaration "Integer Text", which contains
both "int" and "text": the first-match order makes "int" win. -/
theorem translate_int_substring_bigint_witness :
    strstr (asc_tolower "Integer Text") "int" = true ∧
    translate_sqliteType__ "Integer Text" = Except.ok "bigint" :=
  ⟨rfl, translate_int_substring_bigint "Integer Text" rfl⟩

/-- Claim C10.  For every declaration of Numeric affinity the translator
raises its classification error precisely when the lower-cased
declaration is exactly "date", and for every other such declaration it
returns the lower-cased declaration string itself: the condition
`strcmp(type, "timestamp") == 0 || strcmp(type, "date")` at lines 81-82
is false only at "date", and the taken branch is `return type`. -/
theorem numeric_affinity_date_only_error (s : String)
    (h : get_affinity__ (asc_tolower s) = "Numeric") :
    translate_sqliteType__ s =
      if asc_tolower s = "date"
      then Except.error ("Could not handle type " ++ asc_tolower s ++ " from a sqlite db")
      else Except.ok (asc_tolower s) := by
  simp only [translate_sqliteType__]
  rw [h]
  by_cases hd : asc_tolower s = "date"
  · rw [hd]
    rfl
  · rw [if_neg hd,
        if_neg (show ¬ (("Numeric" : String) = "Text") by decide),
        if_neg (show ¬ (("Numeric" : String) = "Integer") by decide),
        if_neg (show ¬ (("Numeric" : String) = "Real") by decide),
        if_neg (show ¬ (("Numeric" : String) = "Blob") by decide),
        if_pos (Or.inr hd)]

/-- Witness for C10 at the declaration "NUMERIC": Numeric affinity, not
"date", so the translator returns the lower-cased string "numeric"
itself. -/
theorem numeric_affinity_date_only_error_witness :
    get_affinity__ (asc_tolower "NUMERIC") = "Numeric" ∧
    translate_sqliteType__ "NUMERIC" =
      (if asc_tolower "NUMERIC" = "date"
       then Except.error ("Could not handle type " ++ asc_tolower "NUMERIC" ++ " from a sqlite db")
       else Except.ok (asc_tolower "NUMERIC")) :=
  ⟨rfl, numeric_affinity_date_only_error "NUMERIC" rfl⟩

/-- Membership form of the linear scans in `is_sqliteTableRequired`. -/
theorem any_beq_iff_mem (l : List String) (x : String) :
    l.any (fun relname => x == relname) = true ↔ x ∈ l := by
  rw [List.any_eq_true]
  constructor
  · rintro ⟨y, hy, he⟩
    rw [beq_iff_eq] at he
    rw [he]
    exact hy
  · intro hmem
    exact ⟨x, hmem, by rw [beq_iff_eq]⟩

/-- Claim C5.  Synthesis yields `none` (absent, not an error) exactly
when the scope filter excludes the table, and the filter itself is:
under `LIMIT_TO` the table is in scope iff its name is in the list
(so an empty list excludes everything), under `EXCEPT` iff its name is
not in the list (an empty list includes everything), and under the
default/`ALL` arm every table is in scope. -/
theorem scope_filter_absent_iff_excluded (q : String → String)
    (stmt : ImportForeignSchemaStmt) (db : List ColumnRow)
    (tablename : String) (opts : SqliteTableImportOptions) :
    (get_foreignTableCreationSql q stmt db tablename opts = Except.ok none ↔
      is_sqliteTableRequired stmt tablename = false) ∧
    (is_sqliteTableRequired stmt tablename = true ↔
      (match stmt.list_type with
       | ImportSchemaType.FDW_IMPORT_SCHEMA_LIMIT_TO => tablename ∈ stmt.table_list
       | ImportSchemaType.FDW_IMPORT_SCHEMA_EXCEPT => ¬ (tablename ∈ stmt.table_list)
       | ImportSchemaType.FDW_IMPORT_SCHEMA_ALL => True)) := by
  constructor
  · simp only [get_foreignTableCreationSql]
    by_cases hr : is_sqliteTableRequired stmt tablename = true
    · rw [hr]
      cases haddc : addColumns q ("CREATE FOREIGN TABLE " ++ stmt.local_schema ++ "."
          ++ q tablename ++ " (") 0 opts db <;> simp [hr, haddc]
    · simp [Bool.eq_false_iff.mpr hr, hr]
  · cases hlt : stmt.list_type
    · simp [is_sqliteTableRequired, hlt]
    · simp only [is_sqliteTableRequired, hlt]
      exact any_beq_iff_mem stmt.table_list tablename
    · simp only [is_sqliteTableRequired, hlt, Bool.not_eq_true']
      rw [← Bool.not_eq_true]
      exact not_congr (any_beq_iff_mem stmt.table_list tablename)

/-- A raised classification error aborts `add_columnDefinition__` with
that error. -/
theorem add_columnDefinition_err (q : String → String) (cftsql : String)
    (counter : Nat) (opts : SqliteTableImportOptions) (columns : ColumnRow)
    (e : String)
    (h : translate_sqliteType__ (typenameOfRow columns) = Except.error e) :
    add_columnDefinition__ q cftsql counter opts columns = Except.error e := by
  simp only [add_columnDefinition__]
  rw [h]

/-- Closed form of a successful `add_columnDefinition__` call. -/
theorem add_columnDefinition_ok (q : String → String) (cftsql : String)
    (counter : Nat) (opts : SqliteTableImportOptions) (columns : ColumnRow)
    (t : String)
    (h : translate_sqliteType__ (typenameOfRow columns) = Except.ok t) :
    add_columnDefinition__ q cftsql counter opts columns =
      Except.ok
        (let s4 := (((if counter > 0 then cftsql ++ "," else cftsql) ++ "\n")
            ++ (q columns.name ++ " ")) ++ (t ++ " ")
         let s5 := if opts.import_notnull = true then
                     (if columns.notnull = 1 then s4 ++ " NOT NULL " else s4)
                   else s4
         if opts.import_default = true then
           (match columns.dflt_value with
            | some d => s5 ++ (" DEFAULT " ++ d ++ " ")
            | none => s5)
         else s5) := by
  simp only [add_columnDefinition__]
  rw [h]

/-- Claim C6.  Full characterization of a built column clause: when the
column's typename classifies to `t`, the clause is exactly the prefix
(the accumulated text with its comma separator, the newline, the quoted
column name and the target type) followed by the two optional suffixes
in this order: `" NOT NULL "` appears iff `import_notnull` is set and
the row's not-null flag equals 1 (and is absent otherwise — in
particular with `import_notnull = false` no NOT NULL clause is emitted
even when the flag is set), and `" DEFAULT <text> "` appears iff
`import_default` is set and the row's default value is not SQL NULL,
with the default text spliced in verbatim. -/
theorem column_clause_optional_suffixes (q : String → String) (cftsql : String)
    (counter : Nat) (opts : SqliteTableImportOptions) (columns : ColumnRow)
    (t : String)
    (ht : translate_sqliteType__ (typenameOfRow columns) = Except.ok t) :
    add_columnDefinition__ q cftsql counter opts columns =
      Except.ok
        ((((if counter > 0 then cftsql ++ "," else cftsql) ++ "\n")
            ++ (q columns.name ++ " ")) ++ (t ++ " ")
          ++ (if opts.import_notnull = true ∧ columns.notnull = 1
              then " NOT NULL " else "")
          ++ (if opts.import_default = true ∧ ¬ (columns.dflt_value = none)
              then " DEFAULT " ++ columns.dflt_value.getD "" ++ " " else "")) := by
  rw [add_columnDefinition_ok q cftsql counter opts columns t ht]
  by_cases h1 : opts.import_notnull = true <;>
    by_cases h2 : columns.notnull = 1 <;>
      by_cases h3 : opts.import_default = true <;>
        cases hd : columns.dflt_value <;>
          simp only [h1, h2, h3, hd, eq_self_iff_true, true_and, and_true,
            false_and, and_false, if_true, if_false, ite_true, ite_false,
            not_false_iff, not_true, Option.getD_some, String.append_empty,
            reduceCtorEq, Except.ok.injEq, ← String.append_assoc]

/-- Witness for C6 at column "id" of type "integer" with not-null flag 1
and default text "0": with both options enabled the clause carries both
`" NOT NULL "` and `" DEFAULT 0 "`, and with `import_notnull = false`
(the flag still 1) the NOT NULL clause is absent while the default
clause stays. -/
theorem column_clause_optional_suffixes_witness :
    add_columnDefinition__ (fun s => "\x22" ++ s ++ "\x22") "" 0
      ⟨true, true⟩ ⟨"id", some "integer", 1, some "0"⟩ =
      Except.ok "\n\x22id\x22 bigint  NOT NULL  DEFAULT 0 " ∧
    add_columnDefinition__ (fun s => "\x22" ++ s ++ "\x22") "" 0
      ⟨false, true⟩ ⟨"id", some "integer", 1, some "0"⟩ =
      Except.ok "\n\x22id\x22 bigint  DEFAULT 0 " :=
  ⟨(column_clause_optional_suffixes (fun s => "\x22" ++ s ++ "\x22") "" 0
      ⟨true, true⟩ ⟨"id", some "integer", 1, some "0"⟩ "bigint" rfl).trans rfl,
   (column_clause_optional_suffixes (fun s => "\x22" ++ s ++ "\x22") "" 0
      ⟨false, true⟩ ⟨"id", some "integer", 1, some "0"⟩ "bigint" rfl).trans rfl⟩

/-- Claim C7.  A column whose declared type is SQL NULL is given the
literal typename "blob" before classification, that typename classifies
to the target type "bytea", and building the column clause succeeds
(no error is raised for such a column). -/
theorem null_decltype_defaults_bytea (q : String → String) (cftsql : String)
    (counter : Nat) (opts : SqliteTableImportOptions) (columns : ColumnRow)
    (h : columns.declType = none) :
    typenameOfRow columns = "blob" ∧
    translate_sqliteType__ (typenameOfRow columns) = Except.ok "bytea" ∧
    ∃ out : String,
      add_columnDefinition__ q cftsql counter opts columns = Except.ok out := by
  have ht : typenameOfRow columns = "blob" := by
    simp [typenameOfRow, h]
  have htr : translate_sqliteType__ (typenameOfRow columns) = Except.ok "bytea" := by
    rw [ht]
    rfl
  exact ⟨ht, htr,
    ⟨_, add_columnDefinition_ok q cftsql counter opts columns "bytea" htr⟩⟩

/-- Witness for C7: a column "payload" with absent declared type funnels
through "blob" to "bytea" and clause construction succeeds. -/
theorem null_decltype_defaults_bytea_witness :
    typenameOfRow ⟨"payload", none, 1, none⟩ = "blob" ∧
    translate_sqliteType__ (typenameOfRow ⟨"payload", none, 1, none⟩) =
      Except.ok "bytea" ∧
    ∃ out : String,
      add_columnDefinition__ (fun s => "\x22" ++ s ++ "\x22") "HDR" 2
        ⟨false, true⟩ ⟨"payload", none, 1, none⟩ = Except.ok out :=
  null_decltype_defaults_bytea (fun s => "\x22" ++ s ++ "\x22") "HDR" 2
    ⟨false, true⟩ ⟨"payload", none, 1, none⟩ rfl

/-- If some cursor row fails to classify, the column loop raises an
error, whatever the accumulated text and counter are. -/
theorem addColumns_fails_of_mem (q : String → String)
    (opts : SqliteTableImportOptions) :
    ∀ (cols : List ColumnRow) (cftsql : String) (counter : Nat),
      (∃ c ∈ cols, ∃ e, translate_sqliteType__ (typenameOfRow c) = Except.error e) →
      ∃ e2, addColumns q cftsql counter opts cols = Except.error e2 := by
  intro cols
  induction cols with
  | nil =>
      intro cftsql counter hfail
      rcases hfail with ⟨c, hc, _⟩
      cases hc
  | cons c cs ih =>
      intro cftsql counter hfail
      rcases htr : translate_sqliteType__ (typenameOfRow c) with e | t
      · refine ⟨e, ?_⟩
        simp only [addColumns]
        rw [add_columnDefinition_err q cftsql counter opts c e htr]
      · rcases hfail with ⟨c2, hc2, e2, he2⟩
        rcases List.mem_cons.mp hc2 with heq | hmem
        · rw [heq] at he2
          rw [htr] at he2
          cases he2
        · obtain ⟨e3, he3⟩ := ih _ (counter + 1) ⟨c2, hmem, e2, he2⟩
          refine ⟨e3, ?_⟩
          simp only [addColumns]
          rw [add_columnDefinition_ok q cftsql counter opts c t htr]
          exact he3

/-- Claim C9.  If any column of an in-scope table fails classification,
the whole table's synthesis returns an error: no statement text, not
even a partial one, is produced for that table (the C code frees the
partial buffer in `PG_CATCH` and re-throws). -/
theorem classification_failure_aborts_table (q : String → String)
    (stmt : ImportForeignSchemaStmt) (db : List ColumnRow) (tablename : String)
    (opts : SqliteTableImportOptions)
    (hreq : is_sqliteTableRequired stmt tablename = true)
    (hfail : ∃ c ∈ db, ∃ e,
      translate_sqliteType__ (typenameOfRow c) = Except.error e) :
    ∃ e2, get_foreignTableCreationSql q stmt db tablename opts =
      Except.error e2 := by
  obtain ⟨e2, he2⟩ := addColumns_fails_of_mem q opts db
    ("CREATE FOREIGN TABLE " ++ stmt.local_schema ++ "."
      ++ q tablename ++ " (") 0 hfail
  refine ⟨e2, ?_⟩
  simp [get_foreignTableCreationSql, hreq, he2]

/-- Witness for C9: a single-column table whose declared type "DATE"
fails classification makes the whole synthesis return an error. -/
theorem classification_failure_aborts_table_witness :
    ∃ e2, get_foreignTableCreationSql (fun s => s)
      ⟨ImportSchemaType.FDW_IMPORT_SCHEMA_ALL, [], "s", "srv"⟩
      [⟨"d", some "DATE", 0, none⟩] "t" ⟨false, false⟩ = Except.error e2 :=
  classification_failure_aborts_table (fun s => s)
    ⟨ImportSchemaType.FDW_IMPORT_SCHEMA_ALL, [], "s", "srv"⟩
    [⟨"d", some "DATE", 0, none⟩] "t" ⟨false, false⟩ rfl
    ⟨⟨"d", some "DATE", 0, none⟩, by simp,
      "Could not handle type date from a sqlite db", rfl⟩

/-- The column loop equals the independent per-column rendering: each
step of `addColumns` appends the standalone clause of
`columnClauseAmended`, preceded by a comma when it is not the first. -/
theorem addColumns_eq_renderClauses (q : String → String)
    (opts : SqliteTableImportOptions) :
    ∀ (cols : List ColumnRow) (cftsql : String) (counter : Nat),
      addColumns q cftsql counter opts cols =
        match renderClauses q opts cols with
        | Except.error e => Except.error e
        | Except.ok cls => Except.ok (cftsql ++ joinClausesFrom counter cls) := by
  intro cols
  induction cols with
  | nil =>
      intro cftsql counter
      simp [addColumns, renderClauses, joinClausesFrom]
  | cons c cs ih =>
      intro cftsql counter
      rcases htr : translate_sqliteType__ (typenameOfRow c) with e | t
      · have h2 : columnClauseAmended q opts c = Except.error e := by
          simp only [columnClauseAmended, htr]
        simp only [addColumns,
          add_columnDefinition_err q cftsql counter opts c e htr,
          renderClauses, h2]
      · have h2 : columnClauseAmended q opts c =
            Except.ok ("\n" ++ (q c.name ++ " ") ++ (t ++ " ")
              ++ (if opts.import_notnull = true ∧ c.notnull = 1
                  then " NOT NULL " else "")
              ++ (if opts.import_default = true ∧ ¬ (c.dflt_value = none)
                  then " DEFAULT " ++ c.dflt_value.getD "" ++ " " else "")) := by
          simp only [columnClauseAmended, htr]
        simp only [addColumns,
          add_columnDefinition_ok q cftsql counter opts c t htr]
        rw [ih]
        simp only [renderClauses, h2]
        cases hm : renderClauses q opts cs with
        | error e => rfl
        | ok cls =>
            simp only [joinClausesFrom]
            by_cases h3 : opts.import_notnull = true <;>
              by_cases h4 : c.notnull = 1 <;>
                by_cases h5 : opts.import_default = true <;>
                  cases hd : c.dflt_value <;>
                    by_cases hc : counter > 0 <;>
                      simp only [h3, h4, h5, hd, hc, eq_self_iff_true, true_and,
                        and_true, false_and, and_false, if_true, if_false,
                        ite_true, ite_false, not_false_iff, not_true,
                        Option.getD_some, String.append_empty, reduceCtorEq,
                        Except.ok.injEq, ← String.append_assoc]

/-- Counterexample to claim C8 as stated: with the marker quoting
function `fun s => "[" ++ s ++ "]"`, schema name "myschema" and an
empty, unrestricted table, the synthesized statement embeds the schema
name verbatim — it contains "myschema" but not its quoted form
"[myschema]", because the header format at `src/funcs.c` lines 210-213
passes `stmt->local_schema` without calling `quote_identifier` on
it. -/
theorem schema_name_not_quoted_cex :
    get_foreignTableCreationSql (fun s => "[" ++ s ++ "]")
      ⟨ImportSchemaType.FDW_IMPORT_SCHEMA_ALL, [], "myschema", "srv"⟩ [] "t1"
      ⟨false, false⟩ =
      Except.ok (some "CREATE FOREIGN TABLE myschema.[t1] (\n) SERVER [srv]\nOPTIONS (table \x27[t1]\x27)") ∧
    strstr "CREATE FOREIGN TABLE myschema.[t1] (\n) SERVER [srv]\nOPTIONS (table \x27[t1]\x27)"
      "[myschema]" = false ∧
    strstr "CREATE FOREIGN TABLE myschema.[t1] (\n) SERVER [srv]\nOPTIONS (table \x27[t1]\x27)"
      "myschema" = true :=
  ⟨rfl, rfl, rfl⟩

/-- Claim C8 as amended.  The synthesizer equals the rendering in which
the table name, the server name and every column name pass through the
caller-supplied `quote_identifier`, while the schema name is embedded
verbatim (unquoted). -/
theorem synthesis_quoting_amended (q : String → String)
    (stmt : ImportForeignSchemaStmt) (db : List ColumnRow)
    (tablename : String) (opts : SqliteTableImportOptions) :
    get_foreignTableCreationSql q stmt db tablename opts =
      renderTableSqlAmended q stmt db tablename opts := by
  simp only [get_foreignTableCreationSql, renderTableSqlAmended]
  by_cases hr : is_sqliteTableRequired stmt tablename = true
  · simp only [hr, Bool.not_true, Bool.false_eq_true, if_false]
    rw [addColumns_eq_renderClauses]
    cases hm : renderClauses q opts db with
    | error e => rfl
    | ok cls =>
        simp only [Option.some.injEq, Except.ok.injEq, ← String.append_assoc]
  · simp only [Bool.eq_false_iff.mpr hr, Bool.not_false, if_true]
